import Mathlib

/-!
Shallow embedding of the retrieval-augmented chat pipeline of
`src/index.ts` (the chat-enabled variant: routes `POST
/chat/conversations`, `GET /chat/conversations/:id`, `POST
/chat/conversations/:id/messages`, `DELETE /notes/:id`) and of
`src/utils/document-store.ts` (`DocumentStore.deleteDocument`,
`DocumentStore.getNotesByIds`).

External effects are made explicit: the relational store is a list of
rows, the vector index a list of entries, the embedding/generation
providers are inputs to the per-turn function.  The per-turn handler
`chatTurn` is a pure function of everything the route reads during one
request; `chatOk` is its success path.
-/

namespace Rag

/-- One match returned by `VECTOR_INDEX.query` (`{id, score}`).
Scores are modelled as rationals. -/
structure VectorMatch where
  id : String
  score : Rat
deriving DecidableEq

/-- A row of the `notes` table as read by the chat route (`SELECT *
FROM notes WHERE id IN (...)` is only consumed through `id` and
`text`). -/
structure Note where
  id : String
  text : String
deriving DecidableEq

/-- One entry of a persisted or returned `sources` array
(`{ id, text }`). -/
structure Source where
  id : String
  text : String
deriving DecidableEq

/-- A row of the `messages` table as used by the chat route.  The
`created_at` column is never consumed by the handler logic modelled
here (history arrives already ordered), so it is omitted. -/
structure Message where
  id : String
  conversation_id : String
  role : String
  content : String
  sources : Option (List Source)
deriving DecidableEq

/-- The response shape of the messages route (`ChatMessage`). -/
structure ChatMessage where
  role : String
  content : String
  sources : Option (List Source)
deriving DecidableEq

/-- One element of the provider-bound `messages` array
(`conversationMessages` keeps only `role` and `content`). -/
structure Turn where
  role : String
  content : String
deriving DecidableEq

/-- An early-return error response of the route (`c.text(body, status)`). -/
structure ErrorResponse where
  status : Nat
  body : String
deriving DecidableEq

/-- Everything `POST /chat/conversations/:id/messages` reads during one
request: route parameter and body, the conversation-existence check,
the prior history query result, the two fresh UUIDs, the vector query
result, the `notes` table contents, and the output of the configured
provider for this turn.  `workersText` is `response.response` of the
Workers-AI call (`none` models an absent field). -/
structure ChatInput where
  conversationId : String
  conversationExists : Bool
  message : String
  priorHistory : List Message
  userMessageId : String
  assistantMessageId : String
  queryMatches : List VectorMatch
  notesDb : List Note
  hasAnthropicKey : Bool
  anthropicText : String
  workersText : Option String
deriving DecidableEq

/-- `vectorQuery.matches.map(m => m.id).filter(Boolean)`: the note ids
returned by the vector query, with falsy (empty) ids dropped. -/
def matchingIds (ms : List VectorMatch) : List String :=
  (ms.map (fun m => m.id)).filter (fun i => decide (i ≠ ""))

/-- The `retrievedNotes` variable: `SELECT * FROM notes WHERE id IN
(...)` is issued only when `matchingIds.length > 0`, otherwise the
list stays empty. -/
def retrievedNotes (notesDb : List Note) (ids : List String) : List Note :=
  if ids.length > 0 then notesDb.filter (fun n => decide (n.id ∈ ids)) else []

/-- One entry of the context block:
`[<idx+1>] (ID: <note.id>)\n<note.text>`. -/
def contextEntry (idx : Nat) (n : Note) : String :=
  "[" ++ toString (idx + 1) ++ "] (ID: " ++ n.id ++ ")\n" ++ n.text

/-- The `contextMessage` variable: an indexed listing of the retrieved
notes, or the fixed no-documents text. -/
def contextMessage (rn : List Note) : String :=
  if rn.length > 0 then
    "Retrieved Documents:\n" ++
      String.intercalate "\n\n" (rn.enum.map (fun p => contextEntry p.1 p.2))
  else
    "No relevant documents found in the knowledge base."

/-- The `systemPrompt` template with the context appended. -/
def systemPromptText (ctx : String) : String :=
  "You are a helpful AI assistant that answers questions based ONLY on the information provided in the retrieved documents.\n\nIMPORTANT RULES:\n1. You must ONLY use information from the \"Retrieved Documents\" section provided below\n2. If no relevant documents are found, or if the documents don\x27t contain information to answer the question, you MUST say \"I don\x27t have enough information in the knowledge base to answer that question.\"\n3. When you use information from a document, you MUST cite it by including the document ID in your response like this: [ID: <document-id>]\n4. Do NOT use any external knowledge or make assumptions beyond what\x27s in the retrieved documents\n5. Be concise and factual in your responses\n\n" ++ ctx

/-- The `assistantMessage` value: the Anthropic branch joins the text
blocks; the Workers-AI branch is `response.response || "Unable to
generate response"` (a missing or empty string falls back). -/
def assistantMessageOf (inp : ChatInput) : String :=
  if inp.hasAnthropicKey then inp.anthropicText
  else
    match inp.workersText with
    | some s => if s = "" then "Unable to generate response" else s
    | none => "Unable to generate response"

/-- The `modelUsed` value set in the chosen provider branch. -/
def modelUsedOf (inp : ChatInput) : String :=
  if inp.hasAnthropicKey then "claude-3-5-sonnet-latest"
  else "@cf/meta/llama-3.1-8b-instruct"

/-- Observable state computed on the success path of the route. -/
structure ChatOutput where
  usedHistory : List Message
  composedMessages : List Turn
  contextMsg : String
  sysPrompt : String
  modelUsed : String
  persistedUser : Message
  persistedAssistant : Message
  response : ChatMessage
deriving DecidableEq

/-- Success path of `POST /chat/conversations/:id/messages`: push the
just-inserted user message onto the prior history, query the vector
index, fetch the matching notes, build context and prompt, compose the
provider messages from the pushed history, take the provider output
verbatim, and persist/return it together with the retrieved notes as
sources (`null`/absent when nothing was retrieved). -/
def chatOk (inp : ChatInput) : ChatOutput :=
  let userMsg : Message :=
    ⟨inp.userMessageId, inp.conversationId, "user", inp.message, none⟩
  let history := inp.priorHistory ++ [userMsg]
  let mids := matchingIds inp.queryMatches
  let rn := retrievedNotes inp.notesDb mids
  let ctx := contextMessage rn
  let content := assistantMessageOf inp
  let srcs : Option (List Source) :=
    if rn.length > 0 then some (rn.map (fun n => Source.mk n.id n.text)) else none
  { usedHistory := history
    composedMessages := history.map (fun m => Turn.mk m.role m.content)
    contextMsg := ctx
    sysPrompt := systemPromptText ctx
    modelUsed := modelUsedOf inp
    persistedUser := userMsg
    persistedAssistant :=
      ⟨inp.assistantMessageId, inp.conversationId, "assistant", content, srcs⟩
    response := ⟨"assistant", content, srcs⟩ }

/-- The whole route: `if (!message) return 400`; then the conversation
existence check (`404`); everything else is the success path. -/
def chatTurn (inp : ChatInput) : Except ErrorResponse ChatOutput :=
  if inp.message = "" then Except.error ⟨400, "Missing message"⟩
  else if inp.conversationExists = false then
    Except.error ⟨404, "Conversation not found"⟩
  else Except.ok (chatOk inp)

/-- Whether the route produced a success response. -/
def isOkB : Except ErrorResponse ChatOutput → Bool
  | Except.ok _ => true
  | Except.error _ => false

/-- Success projection of the route result. -/
def okOut : Except ErrorResponse ChatOutput → Option ChatOutput
  | Except.ok o => some o
  | Except.error _ => none

/-- The `sources` array persisted with the assistant message of a
completed turn (the JSON column decoded; `[]` for an error response or
a `null` column). -/
def persistedSources : Except ErrorResponse ChatOutput → List Source
  | Except.ok o => o.persistedAssistant.sources.getD []
  | Except.error _ => []

end Rag

namespace DocStore

/-- A row of the `documents` table (fields the deletion path touches). -/
structure DocumentRow where
  id : String
  title : String
deriving DecidableEq

/-- A row of the `notes` table (`NoteRecord` of `types.ts`). -/
structure NoteRecord where
  id : String
  document_id : String
  text : String
  chunk_index : Nat
deriving DecidableEq

/-- An entry of the Vectorize index; ingestion upserts one entry per
note with the note id as the vector id. -/
structure VectorEntry where
  id : String
deriving DecidableEq

/-- The stores `DocumentStore` and the routes act on: KV keys, the two
D1 tables, and the vector index. -/
structure Store where
  kvKeys : List String
  documents : List DocumentRow
  notes : List NoteRecord
  vectors : List VectorEntry
deriving DecidableEq

/-- `DocumentStore.getDocumentKey`: `doc:<documentId>`. -/
def getDocumentKey (documentId : String) : String :=
  "doc:" ++ documentId

/-- `DocumentStore.deleteDocument`: delete the KV entry, then `DELETE
FROM documents WHERE id = ?`; the `notes` rows go away through the `ON
DELETE CASCADE` foreign key of migration 0002.  No call on
`VECTOR_INDEX` occurs in this method, so the vector list is unchanged. -/
def deleteDocument (s : Store) (documentId : String) : Store :=
  { s with
    kvKeys := s.kvKeys.filter (fun k => decide (k ≠ getDocumentKey documentId))
    documents := s.documents.filter (fun d => decide (d.id ≠ documentId))
    notes := s.notes.filter (fun n => decide (n.document_id ≠ documentId)) }

/-- The `DELETE /notes/:id` route: `DELETE FROM notes WHERE id = ?`
followed by `VECTOR_INDEX.deleteByIds([id])`. -/
def deleteNoteRoute (s : Store) (noteId : String) : Store :=
  { s with
    notes := s.notes.filter (fun n => decide (n.id ≠ noteId))
    vectors := s.vectors.filter (fun v => decide (v.id ≠ noteId)) }

/-- `DocumentStore.MAX_IDS`. -/
def MAX_IDS : Nat := 1000

/-- Observable outcome of `DocumentStore.getNotesByIds`: whether a D1
query was prepared at all, the ids actually bound as parameters, and
the rows returned. -/
structure NotesByIdsResult where
  queried : Bool
  boundIds : List String
  results : List NoteRecord
deriving DecidableEq

/-- `DocumentStore.getNotesByIds`: an empty id list returns `[]`
before any query is prepared; otherwise the ids are truncated to the
first `MAX_IDS` entries and exactly those are bound into the
`SELECT * FROM notes WHERE id IN (...)` placeholders. -/
def getNotesByIds (db : List NoteRecord) (noteIds : List String) : NotesByIdsResult :=
  if noteIds.length = 0 then ⟨false, [], []⟩
  else
    let limitedIds := noteIds.take MAX_IDS
    ⟨true, limitedIds, db.filter (fun n => decide (n.id ∈ limitedIds))⟩

end DocStore

namespace Rag

/-- A turn with one high-scoring match whose note exists, answered by
the Workers-AI provider. -/
def c1w : ChatInput :=
  ⟨"c1", true, "what is a cat?", [], "u1", "a1", [⟨"n1", (9:Rat)/10⟩],
    [⟨"n1", "cats are mammals"⟩], false, "", some "Cats are mammals [ID: n1]"⟩

/-- C1: every id appearing in the `sources` field persisted with the
assistant message of a completed `POST /chat/conversations/:id/messages`
turn is one of the note ids returned by the vector-index query of that
same turn, whatever the generation output was. -/
theorem c1_citation_soundness (inp : ChatInput) (out : ChatOutput) (src : Source)
    (hok : chatTurn inp = Except.ok out)
    (hmem : src ∈ out.persistedAssistant.sources.getD []) :
    src.id ∈ inp.queryMatches.map (fun m => m.id) := by
  unfold chatTurn at hok
  split at hok
  · exact absurd hok (by simp)
  · split at hok
    · exact absurd hok (by simp)
    · injection hok with h
      subst h
      simp only [chatOk] at hmem
      split at hmem
      · simp only [Option.getD_some, List.mem_map] at hmem
        obtain ⟨n, hn, rfl⟩ := hmem
        unfold retrievedNotes at hn
        split at hn
        · rw [List.mem_filter] at hn
          have hid : n.id ∈ matchingIds inp.queryMatches := by
            simpa using hn.2
          unfold matchingIds at hid
          rw [List.mem_filter] at hid
          exact hid.1
        · exact absurd hn (by simp)
      · exact absurd hmem (by simp)

/-- C1 witness: at a concrete turn the persisted source `n1` is among
the queried ids. -/
theorem c1_citation_soundness_witness :
    chatTurn c1w = Except.ok (chatOk c1w) ∧
    Source.mk "n1" "cats are mammals" ∈
      (chatOk c1w).persistedAssistant.sources.getD [] ∧
    (Source.mk "n1" "cats are mammals").id ∈
      c1w.queryMatches.map (fun m => m.id) :=
  ⟨rfl, by decide,
    c1_citation_soundness c1w (chatOk c1w) (Source.mk "n1" "cats are mammals")
      rfl (by decide)⟩

/-- A turn whose single match scores 0.5, below the claimed 0.65
threshold, with the matching note present in the database. -/
def c2cx : ChatInput :=
  ⟨"c1", true, "anything about cats?", [], "u1", "a1", [⟨"n1", (1:Rat)/2⟩],
    [⟨"n1", "cat facts"⟩], false, "", some "A low-score answer"⟩

/-- C2 counterexample: the top-1 similarity 0.5 is below 0.65, yet the
route returns the retrieved note as a source and the provider output as
content; no similarity threshold exists anywhere on this path. -/
theorem c2_guard_counterexample :
    c2cx.queryMatches.map (fun m => m.score) = [(1:Rat)/2] ∧
    (1:Rat)/2 < 13/20 ∧
    (okOut (chatTurn c2cx)).map (fun o => o.response.sources) =
      some (some [Source.mk "n1" "cat facts"]) ∧
    (okOut (chatTurn c2cx)).map (fun o => o.response.content) =
      some "A low-score answer" :=
  ⟨rfl, by norm_num, by decide, by decide⟩

/-- A turn whose vector query returns no matches. -/
def c2w : ChatInput :=
  ⟨"c1", true, "anything at all?", [], "u1", "a1", [], [], false, "",
    some "I do not know"⟩

/-- C2 amended: no similarity gating is performed; the `sources` of
the response is absent exactly when the set of retrieved notes is empty
(for example when the vector query returns no matches), and in that
case the context block is the fixed no-relevant-documents text. -/
theorem c2_amended_guard (inp : ChatInput) (hm : inp.message ≠ "")
    (hc : inp.conversationExists = true) :
    chatTurn inp = Except.ok (chatOk inp) ∧
    ((chatOk inp).response.sources = none ↔
      retrievedNotes inp.notesDb (matchingIds inp.queryMatches) = []) ∧
    (retrievedNotes inp.notesDb (matchingIds inp.queryMatches) = [] →
      (chatOk inp).contextMsg =
        "No relevant documents found in the knowledge base.") := by
  refine ⟨?_, ?_, ?_⟩
  · unfold chatTurn
    rw [if_neg hm, if_neg (by simp [hc])]
  · simp only [chatOk]
    constructor
    · intro h
      by_cases hl : (retrievedNotes inp.notesDb (matchingIds inp.queryMatches)).length > 0
      · rw [if_pos hl] at h
        exact absurd h (by simp)
      · have h0 : (retrievedNotes inp.notesDb (matchingIds inp.queryMatches)).length = 0 := by
          omega
        exact List.length_eq_zero.mp h0
    · intro h
      rw [h]
      simp
  · intro h
    simp only [chatOk]
    rw [h]
    rfl

/-- C2 amended witness: with no matches the context block is the guard
text. -/
theorem c2_amended_guard_witness :
    (chatOk c2w).contextMsg = "No relevant documents found in the knowledge base." :=
  (c2_amended_guard c2w (by decide) rfl).2.2 (by decide)

/-- A third turn of a conversation with two persisted prior messages. -/
def c3w : ChatInput :=
  ⟨"c1", true, "second question",
    [⟨"m0", "c1", "user", "first question", none⟩,
      ⟨"m1", "c1", "assistant", "first answer", none⟩],
    "u2", "a2", [], [], false, "", some "second answer"⟩

/-- C3: the history used for prompt composition is the prior persisted
history with the just-inserted user message appended once; provided the
fresh message id does not collide with a prior row, that history holds
exactly one message with the new id (and it carries the content of
the request), and the provider-bound array is exactly its role/content
projection — so the current user message appears exactly once, for any
prior history length. -/
theorem c3_user_message_once (inp : ChatInput)
    (hfresh : ∀ m ∈ inp.priorHistory, m.id ≠ inp.userMessageId)
    (hm : inp.message ≠ "") (hc : inp.conversationExists = true) :
    chatTurn inp = Except.ok (chatOk inp) ∧
    (chatOk inp).usedHistory.countP (fun m => m.id == inp.userMessageId) = 1 ∧
    (chatOk inp).usedHistory.filter (fun m => m.id == inp.userMessageId) =
      [⟨inp.userMessageId, inp.conversationId, "user", inp.message, none⟩] ∧
    (chatOk inp).composedMessages =
      (chatOk inp).usedHistory.map (fun m => Turn.mk m.role m.content) := by
  have h0 : inp.priorHistory.countP (fun m => m.id == inp.userMessageId) = 0 := by
    rw [List.countP_eq_zero]
    intro a ha
    simp only [beq_iff_eq]
    exact hfresh a ha
  have hfil : inp.priorHistory.filter (fun m => m.id == inp.userMessageId) = [] := by
    rw [List.filter_eq_nil_iff]
    intro a ha
    simp only [beq_iff_eq]
    exact hfresh a ha
  refine ⟨?_, ?_, ?_, ?_⟩
  · unfold chatTurn
    rw [if_neg hm, if_neg (by simp [hc])]
  · simp [chatOk, List.countP_append, h0]
  · simp [chatOk, List.filter_append, hfil]
  · simp [chatOk]

/-- C3 witness: at a concrete third turn the current user message
appears exactly once in the used history. -/
theorem c3_user_message_once_witness :
    (chatOk c3w).usedHistory.countP (fun m => m.id == c3w.userMessageId) = 1 :=
  (c3_user_message_once c3w (by decide) (by decide) rfl).2.1

/-- A turn whose conversation already holds 13 persisted messages,
more than the claimed window of 12. -/
def c4cx : ChatInput :=
  ⟨"c1", true, "question 14",
    (List.range 13).map (fun i => ⟨"m" ++ toString i, "c1", "user", "turn", none⟩),
    "u14", "a14", [], [], false, "", some "answer 14"⟩

/-- C4 counterexample: with 13 stored messages (more than 12) the
provider receives all 14 messages — no window of at most 13 (12 plus a
summary) is ever applied. -/
theorem c4_window_counterexample :
    c4cx.priorHistory.length = 13 ∧
    12 < c4cx.priorHistory.length ∧
    (okOut (chatTurn c4cx)).map (fun o => o.composedMessages.length) = some 14 :=
  ⟨by decide, by decide, by decide⟩

/-- A short, in-window conversation. -/
def c4w : ChatInput :=
  ⟨"c1", true, "third question",
    [⟨"m0", "c1", "user", "first question", none⟩,
      ⟨"m1", "c1", "assistant", "first answer", none⟩],
    "u3", "a3", [], [], false, "", some "third answer"⟩

/-- C4 amended: no windowing or summarization exists; the composed
provider messages are always the entire stored history plus the current
message, `history.length + 1` entries, for histories of any length. -/
theorem c4_amended_no_window (inp : ChatInput) (hm : inp.message ≠ "")
    (hc : inp.conversationExists = true) :
    chatTurn inp = Except.ok (chatOk inp) ∧
    (chatOk inp).composedMessages.length = inp.priorHistory.length + 1 := by
  refine ⟨?_, ?_⟩
  · unfold chatTurn
    rw [if_neg hm, if_neg (by simp [hc])]
  · simp [chatOk]

/-- C4 amended witness: two stored messages compose to three provider
messages. -/
theorem c4_amended_no_window_witness :
    (chatOk c4w).composedMessages.length = c4w.priorHistory.length + 1 :=
  (c4_amended_no_window c4w (by decide) rfl).2

/-- A guard-mode turn (no matches) whose generation output cites an
id that was never retrieved. -/
def c5cx : ChatInput :=
  ⟨"c1", true, "can cats fly?", [], "u1", "a1", [], [], false, "",
    some "According to [ID: bogus], cats can fly."⟩

/-- C5 counterexample: the retrieved id set is empty, yet the citation
token `[ID: bogus]` survives verbatim in the returned content and no
removal note is appended; the persisted sources are empty. -/
theorem c5_citation_counterexample :
    matchingIds c5cx.queryMatches = [] ∧
    (okOut (chatTurn c5cx)).map (fun o => o.response.content) =
      some "According to [ID: bogus], cats can fly." ∧
    persistedSources (chatTurn c5cx) = [] := by decide

/-- A retrieval-backed turn answered by the Workers-AI provider. -/
def c5w : ChatInput :=
  ⟨"c1", true, "what is a cat?", [], "u5", "a5", [⟨"n1", (9:Rat)/10⟩],
    [⟨"n1", "cats are mammals"⟩], false, "",
    some "Cats are mammals [ID: n1] and [ID: invented]"⟩

/-- C5 amended: no citation post-processing exists; the generated
assistant text is returned and persisted verbatim, with no token
removed and no disclosure note appended, whatever ids it cites. -/
theorem c5_amended_verbatim (inp : ChatInput) (hm : inp.message ≠ "")
    (hc : inp.conversationExists = true) :
    chatTurn inp = Except.ok (chatOk inp) ∧
    (chatOk inp).response.content = assistantMessageOf inp ∧
    (chatOk inp).persistedAssistant.content = assistantMessageOf inp := by
  refine ⟨?_, ?_, ?_⟩
  · unfold chatTurn
    rw [if_neg hm, if_neg (by simp [hc])]
  · simp [chatOk]
  · simp [chatOk]

/-- C5 amended witness: a fabricated citation passes through verbatim. -/
theorem c5_amended_verbatim_witness :
    (chatOk c5w).response.content = assistantMessageOf c5w :=
  (c5_amended_verbatim c5w (by decide) rfl).2.1

/-- A plain valid request, repeated at will. -/
def c7cx : ChatInput :=
  ⟨"c1", true, "hello", [], "u1", "a1", [], [], false, "", some "hi there"⟩

/-- C7 counterexample: 61 identical requests from one key all succeed;
in particular the 61st is not rejected — there is no rate limiting at
all on this route. -/
theorem c7_rate_limit_counterexample :
    ((List.replicate 61 c7cx).map (fun i => isOkB (chatTurn i))).all
      (fun b => b) = true ∧
    ((List.replicate 61 c7cx).map (fun i => isOkB (chatTurn i))).length = 61 := by
  constructor
  · rw [List.map_replicate]
    decide
  · rw [List.map_replicate]
    decide

/-- C7 amended: no admission control exists; every request with a
non-empty message to an existing conversation runs the full pipeline,
however many requests preceded it, and the only rejection responses of
the route are 400 (missing message) and 404 (unknown conversation) —
there is no 429/retry-after path. -/
theorem c7_amended_no_rate_limit (inp : ChatInput) :
    (inp.message ≠ "" → inp.conversationExists = true →
      chatTurn inp = Except.ok (chatOk inp)) ∧
    (∀ e, chatTurn inp = Except.error e → e.status = 400 ∨ e.status = 404) := by
  constructor
  · intro hm hc
    unfold chatTurn
    rw [if_neg hm, if_neg (by simp [hc])]
  · intro e he
    unfold chatTurn at he
    split at he
    · injection he with h
      subst h
      left
      rfl
    · split at he
      · injection he with h
        subst h
        right
        rfl
      · exact absurd he (by simp)

/-- C7 amended witness: a concrete request is admitted. -/
theorem c7_amended_no_rate_limit_witness :
    chatTurn c7cx = Except.ok (chatOk c7cx) :=
  (c7_amended_no_rate_limit c7cx).1 (by decide) rfl

/-- A request whose Workers-AI call produces no text (a generation
failure), repeated at will. -/
def c8cx : ChatInput :=
  ⟨"c1", true, "hello", [], "u1", "a1", [], [], false, "", none⟩

/-- C8 counterexample: six consecutive failing generation calls each
still reach the provider (the provider model is recorded on every one
of them), and the failure content served is the fixed string `Unable
to generate response`, not a fallback built from the retrieved
context — no circuit breaker exists. -/
theorem c8_breaker_counterexample :
    ((List.replicate 6 c8cx).map
        (fun i => (okOut (chatTurn i)).map (fun o => o.modelUsed))) =
      List.replicate 6 (some "@cf/meta/llama-3.1-8b-instruct") ∧
    (okOut (chatTurn c8cx)).map (fun o => o.response.content) =
      some "Unable to generate response" := by
  constructor
  · rw [List.map_replicate]
    decide
  · decide

/-- C8 amended: the generation call is unguarded; every validated turn
invokes the configured provider and records its model, and when the
Workers-AI provider returns no text the content is the constant
fallback string, independent of the retrieved context. -/
theorem c8_amended_no_breaker (inp : ChatInput) (hm : inp.message ≠ "")
    (hc : inp.conversationExists = true) :
    chatTurn inp = Except.ok (chatOk inp) ∧
    (chatOk inp).modelUsed = modelUsedOf inp ∧
    (inp.hasAnthropicKey = false → inp.workersText = none →
      (chatOk inp).response.content = "Unable to generate response") := by
  refine ⟨?_, ?_, ?_⟩
  · unfold chatTurn
    rw [if_neg hm, if_neg (by simp [hc])]
  · simp [chatOk]
  · intro h1 h2
    simp [chatOk, assistantMessageOf, h1, h2]

/-- C8 amended witness: a failing Workers-AI call yields the constant
fallback. -/
theorem c8_amended_no_breaker_witness :
    (chatOk c8cx).response.content = "Unable to generate response" :=
  (c8_amended_no_breaker c8cx (by decide) rfl).2.2 rfl rfl

/-- A whitespace-only chat message. -/
def c9ws : ChatInput :=
  ⟨"c1", true, " ", [], "u1", "a1", [], [], false, "", some "whitespace answer"⟩

/-- A 10001-character chat message. -/
def c9long : ChatInput :=
  ⟨"c1", true, String.mk (List.replicate 10001 'a'), [], "u1", "a1", [], [],
    false, "", some "long answer"⟩

/-- C9 counterexample: a whitespace-only message and a 10001-character
message are both accepted and fully processed — neither an
invalid-input nor a payload-too-large rejection exists. -/
theorem c9_validation_counterexample :
    c9ws.message = " " ∧
    isOkB (chatTurn c9ws) = true ∧
    c9long.message.length = 10001 ∧
    isOkB (chatTurn c9long) = true := by
  have hlen : c9long.message.length = 10001 := by
    show (String.mk (List.replicate 10001 'a')).length = 10001
    rw [String.length_mk, List.length_replicate]
  have hne : c9long.message ≠ "" := by
    intro h
    rw [h] at hlen
    simp at hlen
  refine ⟨rfl, by decide, hlen, ?_⟩
  unfold chatTurn
  rw [if_neg hne, if_neg (by simp [c9long])]
  rfl

/-- An absent (empty) chat message. -/
def c9w : ChatInput :=
  ⟨"c1", true, "", [], "u1", "a1", [], [], false, "", some "x"⟩

/-- C9 amended: the only input validation is the JavaScript falsiness
check on `message`: an empty message is rejected with 400 `Missing
message`, and any non-empty message — whitespace-only or arbitrarily
long — to an existing conversation is processed. -/
theorem c9_amended_validation (inp : ChatInput) :
    (inp.message = "" → chatTurn inp = Except.error ⟨400, "Missing message"⟩) ∧
    (inp.message ≠ "" → inp.conversationExists = true →
      chatTurn inp = Except.ok (chatOk inp)) := by
  constructor
  · intro h
    unfold chatTurn
    rw [if_pos h]
  · intro hm hc
    unfold chatTurn
    rw [if_neg hm, if_neg (by simp [hc])]

/-- C9 amended witness: the empty message is rejected, the
whitespace-only one is processed. -/
theorem c9_amended_validation_witness :
    chatTurn c9w = Except.error ⟨400, "Missing message"⟩ ∧
    chatTurn c9ws = Except.ok (chatOk c9ws) :=
  ⟨(c9_amended_validation c9w).1 rfl,
    (c9_amended_validation c9ws).2 (by decide) rfl⟩

end Rag

namespace DocStore

/-- A store holding one document with two chunked notes and their two
vector entries (vector id equals note id, as ingestion guarantees). -/
def c6Store : Store :=
  ⟨[getDocumentKey "doc-1"], [⟨"doc-1", "Test Doc"⟩],
    [⟨"note-1", "doc-1", "Note 1", 0⟩, ⟨"note-2", "doc-1", "Note 2", 1⟩],
    [⟨"note-1"⟩, ⟨"note-2"⟩]⟩

/-- C6: `deleteDocument` removes the KV entry, the document row and
(via the cascade) the note rows, but the vector index is left exactly
as it was — both vectors of the deleted document remain queryable,
contradicting the claimed round-trip removal. -/
theorem c6_delete_document_orphans_vectors :
    (deleteDocument c6Store "doc-1").documents = [] ∧
    (deleteDocument c6Store "doc-1").notes = [] ∧
    (deleteDocument c6Store "doc-1").kvKeys = [] ∧
    (deleteDocument c6Store "doc-1").vectors = c6Store.vectors ∧
    c6Store.vectors.map (fun v => v.id) = ["note-1", "note-2"] := by decide

/-- C10: `getNotesByIds` returns `[]` for an empty id list before any
query is prepared, and otherwise binds exactly the first `MAX_IDS`
(1000) ids, so the number of bound parameters never exceeds 1000. -/
theorem c10_get_notes_by_ids_bounds (db : List NoteRecord) (ids : List String) :
    (ids = [] → getNotesByIds db ids = ⟨false, [], []⟩) ∧
    (ids ≠ [] → (getNotesByIds db ids).queried = true ∧
      (getNotesByIds db ids).boundIds = ids.take MAX_IDS) ∧
    (getNotesByIds db ids).boundIds.length ≤ 1000 := by
  refine ⟨?_, ?_, ?_⟩
  · intro h
    subst h
    rfl
  · intro h
    have hl : ¬ ids.length = 0 := by
      simpa [List.length_eq_zero] using h
    unfold getNotesByIds
    rw [if_neg hl]
    exact ⟨rfl, rfl⟩
  · unfold getNotesByIds
    split
    · simp
    · rw [List.length_take]
      exact min_le_left MAX_IDS ids.length

/-- C10 witness: the empty list short-circuits, and a two-element list
is queried as bound parameters. -/
theorem c10_get_notes_by_ids_bounds_witness :
    getNotesByIds ([] : List NoteRecord) ([] : List String) = ⟨false, [], []⟩ ∧
    (getNotesByIds ([] : List NoteRecord) ["a", "b"]).queried = true :=
  ⟨(c10_get_notes_by_ids_bounds [] []).1 rfl,
    ((c10_get_notes_by_ids_bounds [] ["a", "b"]).2.1 (by decide)).1⟩

end DocStore
